import Mathlib

/-!
Shallow embedding of the monetization core of the `editia-core` repository.

Sources embedded here:
- `src/src/types/database.ts` - plan hierarchy and pure quota helpers
  (`getPlanLevel`, `hasPlanAccess`, `calculateRemainingUsage`, `hasReachedLimit`).
- `src/src/types/monetization.ts` (`src/unnamed/part_010`) - feature, action and
  usage-field tables and their lookup functions.
- `src/unnamed/part_012` - `MonetizationService` (`checkFeatureAccess`,
  `validateUsage`, `checkMonetization`, `getUserUsage`, `getFeatureRequirements`,
  rpc-based `incrementUsage`/`decrementUsage`).
- `src/src/middleware/monetization/index.ts` - `UserUsageService`
  (`createUserUsage`, `getUserUsage`, `updateUserPlan`, `incrementUsage`,
  `checkUsageLimit`).
- `src/src/middleware/monetization/monetization-middleware.ts` -
  `createMonetizationMiddleware` (charge queueing) and
  `createUsageIncrementMiddleware` (post-handler charge stage).

Modelling conventions:
- JavaScript numbers holding counters and limits are modelled as `Int`
  (limits use the `-1` sentinel, so `Nat` would be wrong).
- The Supabase backing store is modelled as an environment of functions from
  keys to a `FetchResult`: a row, a no-row condition (PostgREST `PGRST116`),
  or a store failure.  A `.single()` query that errors for either reason is
  exactly the `error` branch of the source.
- `async`/`await` sequencing is modelled by explicit state passing; functions
  that issue store reads also return the list of `StoreCall`s they performed,
  so "no backing-store call" claims are statements about that list.
- The 5-minute in-process TTL cache of both services is elided: every function
  is modelled at a cold cache (each lookup goes to the store).  No claim in
  scope mentions the cache, and within a single evaluation the store is not
  mutated, so a warm cache returns the same data.
- `console.error`/`console.log` logging is elided; it does not affect results.
- Derived floating-point `percentage` fields and `created_at`/`updated_at`
  metadata timestamps are elided; no embedded function's result depends on
  them.
-/

namespace EditiaCore

/-! ## Plan catalog and pure helpers (`src/src/types/database.ts`) -/

/-- `PlanIdentifier` from `src/src/types/database.ts`:
`'free' | 'creator' | 'pro'`. -/
inductive PlanIdentifier where
  | free
  | creator
  | pro
deriving DecidableEq

/-- `getPlanLevel` from `src/src/types/database.ts`:
`{ free: 0, creator: 1, pro: 2 }[plan]`. -/
def getPlanLevel : PlanIdentifier → Int
  | .free => 0
  | .creator => 1
  | .pro => 2

/-- `hasPlanAccess` from `src/src/types/database.ts`:
`getPlanLevel(userPlan) >= getPlanLevel(requiredPlan)`. -/
def hasPlanAccess (userPlan requiredPlan : PlanIdentifier) : Bool :=
  getPlanLevel userPlan ≥ getPlanLevel requiredPlan

/-- `calculateRemainingUsage` from `src/src/types/database.ts`:
`Math.max(0, limit - used)`. -/
def calculateRemainingUsage (used limit : Int) : Int :=
  max 0 (limit - used)

/-- `hasReachedLimit` from `src/src/types/database.ts`:
`used >= limit`.  Note: no special case for the `-1` unlimited sentinel. -/
def hasReachedLimit (used limit : Int) : Bool :=
  used ≥ limit

/-! ## Feature / action / usage-field tables (`src/src/types/monetization.ts`) -/

/-- `Object.values(FEATURES)` from `src/src/types/monetization.ts`. -/
def FEATURES : List String :=
  ["video_generation", "source_videos", "voice_clone", "account_analysis",
   "account_insights", "account_chat", "script_conversations",
   "script_generation", "chat_ai"]

/-- `isValidFeatureId` from `src/src/types/monetization.ts`:
`Object.values(FEATURES).includes(value)`. -/
def isValidFeatureId (value : String) : Bool :=
  FEATURES.contains value

/-- `Object.values(ACTIONS)` from `src/src/types/monetization.ts`. -/
def ACTIONS : List String :=
  ["video_generation", "source_video_upload", "voice_clone",
   "account_analysis", "account_insights", "account_chat",
   "script_conversations"]

/-- `isValidAction` from `src/src/types/monetization.ts`. -/
def isValidAction (value : String) : Bool :=
  ACTIONS.contains value

/-- `FEATURE_TO_ACTION_MAP` lookup (`getActionForFeature`) from
`src/src/types/monetization.ts`.  A key outside the record yields JavaScript
`undefined`, modelled as the string `"undefined"` (not a valid action). -/
def getActionForFeature : String → String
  | "video_generation" => "video_generation"
  | "source_videos" => "source_video_upload"
  | "voice_clone" => "voice_clone"
  | "account_analysis" => "account_analysis"
  | "account_insights" => "account_insights"
  | "script_conversations" => "script_conversations"
  | "script_generation" => "script_conversations"
  | "chat_ai" => "script_conversations"
  | "account_chat" => "account_chat"
  | _ => "undefined"

/-- `ACTION_TO_USAGE_FIELD_MAP` lookup (`getUsageFieldForAction`) from
`src/src/types/monetization.ts`. -/
def getUsageFieldForAction : String → String
  | "video_generation" => "videos_generated"
  | "source_video_upload" => "source_videos_used"
  | "voice_clone" => "voice_clones_used"
  | "account_analysis" => "account_analysis_used"
  | "account_insights" => "account_insights_used"
  | "script_conversations" => "script_conversations_used"
  | "account_chat" => "account_chat_used"
  | _ => "undefined"

/-- `FEATURE_TO_USAGE_FIELD_MAP` lookup (`getUsageFieldForFeature`) from
`src/src/types/monetization.ts`. -/
def getUsageFieldForFeature : String → String
  | "video_generation" => "videos_generated"
  | "source_videos" => "source_videos_used"
  | "voice_clone" => "voice_clones_used"
  | "account_analysis" => "account_analysis_used"
  | "account_insights" => "account_insights_used"
  | "account_chat" => "account_chat_used"
  | "script_conversations" => "script_conversations_used"
  | "script_generation" => "script_conversations_used"
  | "chat_ai" => "script_conversations_used"
  | _ => "undefined"

/-! ## Records (`src/src/types/database.ts` and the `user_usage` rows the
services read and write) -/

/-- The `user_usage` row as read and written by the embedded services: the
`UserUsage` interface of `src/src/types/database.ts` plus the
`script_conversations` pair and `subscription_status`, both of which
`UserUsageService.createUserUsage` / `updateUserPlan` write and
`MonetizationService.getUsageInfoForField` reads.  `next_reset_date` is a
millisecond timestamp (the source stores `new Date(ms).toISOString()`, an
injective image of the same value).  `created_at`/`updated_at` metadata are
elided. -/
structure UserUsage where
  user_id : String
  current_plan_id : PlanIdentifier
  videos_generated : Int
  videos_generated_limit : Int
  source_videos_used : Int
  source_videos_limit : Int
  voice_clones_used : Int
  voice_clones_limit : Int
  account_analysis_used : Int
  account_analysis_limit : Int
  script_conversations_used : Int
  script_conversations_limit : Int
  subscription_status : String
  next_reset_date : Int
deriving DecidableEq

/-- The fields of the `SubscriptionPlan` interface
(`src/src/types/database.ts`) that `UserUsageService` reads:
the per-resource limits (plus the `script_conversations` limit the services
use).  `name`/`description`/`is_unlimited`/`is_active` are elided. -/
structure SubscriptionPlan where
  id : PlanIdentifier
  videos_generated_limit : Int
  source_videos_limit : Int
  voice_clones_limit : Int
  account_analysis_limit : Int
  script_conversations_limit : Int
deriving DecidableEq

/-- The fields of the `FeatureFlag` interface (`src/src/types/database.ts`)
the services read: `required_plan` (nullable) and `is_active`.
`name`/`description`/`created_at` are elided. -/
structure FeatureFlag where
  id : String
  required_plan : Option PlanIdentifier
  is_active : Bool
deriving DecidableEq

/-- Outcome of one Supabase `.single()` row fetch: a row, the PostgREST
"no rows" error (`PGRST116`), or any other backing-store failure (error
result or thrown exception, which the sources handle identically). -/
inductive FetchResult (α : Type) where
  | found (row : α)
  | noRows
  | storeFailure
deriving DecidableEq

/-! ## MonetizationService (`src/unnamed/part_012`) -/

/-- The backing store as seen by `MonetizationService`: the `user_usage` table
keyed by `user_id` and the `feature_flags` table keyed by feature `id`. -/
structure MEnv where
  user_usage : String → FetchResult UserUsage
  feature_flags : String → FetchResult FeatureFlag

/-- One backing-store read issued by `MonetizationService` (the `.from(...)`
queries of `src/unnamed/part_012`). -/
inductive StoreCall where
  | readUserUsage (userId : String)
  | readFeatureFlags (featureId : String)
deriving DecidableEq

/-- `MonetizationService.getUserUsage` from `src/unnamed/part_012` (cold
cache): `.from('user_usage').select('*').eq('user_id', userId).single()`;
any error (no row or store failure) yields `null`.  Returns the result
together with the store call performed. -/
def mGetUserUsage (env : MEnv) (userId : String) :
    Option UserUsage × List StoreCall :=
  (match env.user_usage userId with
    | .found row => some row
    | .noRows => none
    | .storeFailure => none,
   [.readUserUsage userId])

/-- `MonetizationService.getFeatureRequirements` from `src/unnamed/part_012`
(cold cache): `.from('feature_flags').select('*').eq('id', featureId)
.eq('is_active', true).single()`.  A row whose `is_active` is `false` is
filtered out by the query, so `.single()` reports no rows; any error (no
row or store failure) yields `null`. -/
def mGetFeatureRequirements (env : MEnv) (featureId : String) :
    Option FeatureFlag × List StoreCall :=
  (match env.feature_flags featureId with
    | .found row => if row.is_active then some row else none
    | .noRows => none
    | .storeFailure => none,
   [.readFeatureFlags featureId])

/-- `UsageInfo` from `src/src/types/monetization.ts`, minus the derived
floating-point `percentage` field (unused by every embedded caller). -/
structure UsageInfo where
  used : Int
  total : Int
  remaining : Int
deriving DecidableEq

/-- `MonetizationService.getUsageInfoForField` from `src/unnamed/part_012`:
the five-entry `fieldMap`; a field outside the map falls back to
`{ used: 0, total: 0 }`. -/
def getUsageInfoForField (usageField : String) (userUsage : UserUsage) :
    UsageInfo :=
  let info : Int × Int :=
    match usageField with
    | "videos_generated" =>
        (userUsage.videos_generated, userUsage.videos_generated_limit)
    | "source_videos_used" =>
        (userUsage.source_videos_used, userUsage.source_videos_limit)
    | "voice_clones_used" =>
        (userUsage.voice_clones_used, userUsage.voice_clones_limit)
    | "account_analysis_used" =>
        (userUsage.account_analysis_used, userUsage.account_analysis_limit)
    | "script_conversations_used" =>
        (userUsage.script_conversations_used,
         userUsage.script_conversations_limit)
    | _ => (0, 0)
  { used := info.1, total := info.2,
    remaining := calculateRemainingUsage info.1 info.2 }

/-- `MonetizationService.getUsageInfoForFeature` from `src/unnamed/part_012`. -/
def getUsageInfoForFeature (featureId : String) (userUsage : UserUsage) :
    UsageInfo :=
  getUsageInfoForField (getUsageFieldForFeature featureId) userUsage

/-- `MonetizationService.getUsageInfoForAction` from `src/unnamed/part_012`. -/
def getUsageInfoForAction (action : String) (userUsage : UserUsage) :
    UsageInfo :=
  getUsageInfoForField (getUsageFieldForAction action) userUsage

/-- `FeatureAccessResult` from `src/src/types/monetization.ts`. -/
structure FeatureAccessResult where
  hasAccess : Bool
  requiredPlan : Option PlanIdentifier
  remainingUsage : Int
  totalLimit : Int
  currentPlan : PlanIdentifier
  err : Option String
deriving DecidableEq

/-- Renders an optional plan into the template strings of
`src/unnamed/part_012` (JavaScript interpolates `null`/`undefined` plan
values into the message; both are rendered here as `"null"`). -/
def planName : Option PlanIdentifier → String
  | some .free => "free"
  | some .creator => "creator"
  | some .pro => "pro"
  | none => "null"

/-- `MonetizationService.checkFeatureAccess` from `src/unnamed/part_012`:
validate the feature id, read the usage row, read the feature flag, compare
plans via `hasPlanAccess` (a missing or `null` requirement always passes),
and report remaining usage for the feature's usage field. -/
def checkFeatureAccess (env : MEnv) (userId featureId : String) :
    FeatureAccessResult × List StoreCall :=
  if isValidFeatureId featureId = false then
    ({ hasAccess := false, requiredPlan := none, remainingUsage := 0,
       totalLimit := 0, currentPlan := .free,
       err := some ("Invalid feature ID: " ++ featureId) }, [])
  else
    match mGetUserUsage env userId with
    | (none, calls) =>
        ({ hasAccess := false, requiredPlan := none, remainingUsage := 0,
           totalLimit := 0, currentPlan := .free,
           err := some "User usage not found" }, calls)
    | (some userUsage, calls) =>
        let fetched := mGetFeatureRequirements env featureId
        let requiredPlan : Option PlanIdentifier :=
          match fetched.1 with
          | some flag => flag.required_plan
          | none => none
        let hasAccess : Bool :=
          match requiredPlan with
          | none => true
          | some rp => hasPlanAccess userUsage.current_plan_id rp
        let usageInfo := getUsageInfoForFeature featureId userUsage
        ({ hasAccess := hasAccess, requiredPlan := requiredPlan,
           remainingUsage := calculateRemainingUsage usageInfo.used usageInfo.total,
           totalLimit := usageInfo.total,
           currentPlan := userUsage.current_plan_id, err := none },
         calls ++ fetched.2)

/-- `UsageValidationResult` from `src/src/types/monetization.ts`. -/
structure UsageValidationResult where
  isValid : Bool
  remainingUsage : Int
  totalLimit : Int
  err : Option String
deriving DecidableEq

/-- `MonetizationService.validateUsage` from `src/unnamed/part_012`:
validate the action, read the usage row, and block iff
`hasReachedLimit(used, total)`. -/
def validateUsage (env : MEnv) (userId action : String) :
    UsageValidationResult × List StoreCall :=
  if isValidAction action = false then
    ({ isValid := false, remainingUsage := 0, totalLimit := 0,
       err := some ("Invalid action: " ++ action) }, [])
  else
    match mGetUserUsage env userId with
    | (none, calls) =>
        ({ isValid := false, remainingUsage := 0, totalLimit := 0,
           err := some "User usage not found" }, calls)
    | (some userUsage, calls) =>
        let usageInfo := getUsageInfoForAction action userUsage
        let isValid := !hasReachedLimit usageInfo.used usageInfo.total
        ({ isValid := isValid,
           remainingUsage := calculateRemainingUsage usageInfo.used usageInfo.total,
           totalLimit := usageInfo.total,
           err := if isValid then none else some "Usage limit reached" },
         calls)

/-- The `details` object of `MonetizationCheckResult`
(`src/src/types/monetization.ts`). -/
structure MonetizationDetails where
  featureId : String
  requiredPlan : Option PlanIdentifier
  usageType : String
deriving DecidableEq

/-- `MonetizationCheckResult` from `src/src/types/monetization.ts`. -/
structure MonetizationCheckResult where
  success : Bool
  hasAccess : Bool
  currentPlan : PlanIdentifier
  remainingUsage : Int
  totalLimit : Int
  err : Option String
  details : Option MonetizationDetails
deriving DecidableEq

/-- `MonetizationService.checkMonetization` from `src/unnamed/part_012`:
validate the feature id (returning before any store access on failure), run
`checkFeatureAccess`, short-circuit with the plan-denial result when access
is refused, otherwise translate the feature to its action and run
`validateUsage`, producing either the quota-denial result or the success
result. -/
def checkMonetization (env : MEnv) (userId featureId : String) :
    MonetizationCheckResult × List StoreCall :=
  if isValidFeatureId featureId = false then
    ({ success := false, hasAccess := false, currentPlan := .free,
       remainingUsage := 0, totalLimit := 0,
       err := some ("Invalid feature ID: " ++ featureId),
       details := none }, [])
  else
    match checkFeatureAccess env userId featureId with
    | (accessResult, calls1) =>
      if accessResult.hasAccess = false then
        ({ success := false, hasAccess := false,
           currentPlan := accessResult.currentPlan,
           remainingUsage := 0, totalLimit := 0,
           err := some ("Feature requires " ++ planName accessResult.requiredPlan
                         ++ " plan"),
           details := some { featureId := featureId,
                             requiredPlan := accessResult.requiredPlan,
                             usageType := getUsageFieldForFeature featureId } },
         calls1)
      else
        let action := getActionForFeature featureId
        match validateUsage env userId action with
        | (usageResult, calls2) =>
          if usageResult.isValid = false then
            ({ success := false, hasAccess := true,
               currentPlan := accessResult.currentPlan,
               remainingUsage := usageResult.remainingUsage,
               totalLimit := usageResult.totalLimit,
               err := some "Usage limit reached",
               details := some { featureId := featureId,
                                 requiredPlan := accessResult.requiredPlan,
                                 usageType := getUsageFieldForFeature featureId } },
             calls1 ++ calls2)
          else
            ({ success := true, hasAccess := true,
               currentPlan := accessResult.currentPlan,
               remainingUsage := usageResult.remainingUsage,
               totalLimit := usageResult.totalLimit,
               err := none,
               details := some { featureId := featureId,
                                 requiredPlan := accessResult.requiredPlan,
                                 usageType := getUsageFieldForFeature featureId } },
             calls1 ++ calls2)

/-! ## UserUsageService (`src/src/middleware/monetization/index.ts`) -/

/-- The backing store as seen by `UserUsageService`: the `user_usage` and
`subscription_plans` tables, the current time (`Date.now()`, milliseconds),
and whether the next insert/update round trip succeeds. -/
structure UsEnv where
  user_usage : String → FetchResult UserUsage
  subscription_plans : PlanIdentifier → FetchResult SubscriptionPlan
  nowMs : Int
  insertOk : Bool
  updateOk : Bool

/-- Effect of a successful `user_usage` insert or update for one user: the
table now holds that row under its `user_id`. -/
def putRow (env : UsEnv) (row : UserUsage) : UsEnv :=
  { env with
    user_usage := fun uid =>
      if uid = row.user_id then .found row else env.user_usage uid }

/-- `UserUsageService.getPlanLimits` from
`src/src/middleware/monetization/index.ts`:
`.from('subscription_plans').select('*').eq('id', planId).single()`;
any error yields `null`. -/
def usGetPlanLimits (env : UsEnv) (planId : PlanIdentifier) :
    Option SubscriptionPlan :=
  match env.subscription_plans planId with
  | .found row => some row
  | .noRows => none
  | .storeFailure => none

/-- `UserUsageService.createUserUsage` from
`src/src/middleware/monetization/index.ts`: fetch the plan limits (failure
yields `null`), then insert a record with zeroed counters, the plan's
limits, `subscription_status: 'active'` and
`next_reset_date = Date.now() + 30 * 24 * 60 * 60 * 1000`; an insert
failure yields `null`.  The TypeScript default argument `planId = 'free'`
is passed explicitly by the callers below.
`mkDefaultRecord` is the inserted row literal of `createUserUsage`:
zeroed counters, the plan's limits, `subscription_status: 'active'` and
`next_reset_date = Date.now() + 30 * 24 * 60 * 60 * 1000`. -/
def mkDefaultRecord (userId : String) (nowMs : Int)
    (planData : SubscriptionPlan) (planId : PlanIdentifier) : UserUsage :=
  { user_id := userId
    current_plan_id := planId
    videos_generated := 0
    videos_generated_limit := planData.videos_generated_limit
    source_videos_used := 0
    source_videos_limit := planData.source_videos_limit
    voice_clones_used := 0
    voice_clones_limit := planData.voice_clones_limit
    account_analysis_used := 0
    account_analysis_limit := planData.account_analysis_limit
    script_conversations_used := 0
    script_conversations_limit := planData.script_conversations_limit
    subscription_status := "active"
    next_reset_date := nowMs + 30 * 24 * 60 * 60 * 1000 }

def usCreateUserUsage (env : UsEnv) (userId : String)
    (planId : PlanIdentifier) : Option UserUsage × UsEnv :=
  match usGetPlanLimits env planId with
  | none => (none, env)
  | some planData =>
    if env.insertOk then
      let record := mkDefaultRecord userId env.nowMs planData planId
      (some record, putRow env record)
    else (none, env)

/-- `UserUsageService.getUserUsage` from
`src/src/middleware/monetization/index.ts`: read the row; on the
`PGRST116` "no record" error, lazily create one via `createUserUsage`
(default plan `'free'`); on any other error yield `null`. -/
def usGetUserUsage (env : UsEnv) (userId : String) :
    Option UserUsage × UsEnv :=
  match env.user_usage userId with
  | .found row => (some row, env)
  | .noRows => usCreateUserUsage env userId .free
  | .storeFailure => (none, env)

/-- `UserUsageService.updateUserPlan` from
`src/src/middleware/monetization/index.ts`: fetch the (lazily created)
usage row; if none could be obtained, delegate to `createUserUsage` with
the new plan; otherwise fetch the new plan's limits and update the row's
`current_plan_id`, the five limit columns and
`subscription_status: 'active'` (the `updated_at` metadata write is
elided), leaving all other columns as stored. -/
def usUpdateUserPlan (env : UsEnv) (userId : String)
    (planId : PlanIdentifier) : Option UserUsage × UsEnv :=
  match usGetUserUsage env userId with
  | (none, env1) => usCreateUserUsage env1 userId planId
  | (some existingUsage, env1) =>
    match usGetPlanLimits env1 planId with
    | none => (none, env1)
    | some planData =>
      if env1.updateOk then
        let updated : UserUsage :=
          { existingUsage with
            current_plan_id := planId
            videos_generated_limit := planData.videos_generated_limit
            source_videos_limit := planData.source_videos_limit
            voice_clones_limit := planData.voice_clones_limit
            account_analysis_limit := planData.account_analysis_limit
            script_conversations_limit := planData.script_conversations_limit
            subscription_status := "active" }
        (some updated, putRow env1 updated)
      else (none, env1)

/-- The `fieldMap` of `UserUsageService.checkUsageLimit`
(`src/src/middleware/monetization/index.ts`): usage field name to the
`(used, limit)` column accessors; the two `account_insights_used` /
`account_chat_used` aliases map to the `account_analysis` columns.  A field
outside the map yields `undefined` (here `none`). -/
def checkLimitFieldMap (field : String) :
    Option ((UserUsage → Int) × (UserUsage → Int)) :=
  match field with
  | "videos_generated" =>
      some (fun u => u.videos_generated, fun u => u.videos_generated_limit)
  | "source_videos_used" =>
      some (fun u => u.source_videos_used, fun u => u.source_videos_limit)
  | "voice_clones_used" =>
      some (fun u => u.voice_clones_used, fun u => u.voice_clones_limit)
  | "account_analysis_used" =>
      some (fun u => u.account_analysis_used, fun u => u.account_analysis_limit)
  | "script_conversations_used" =>
      some (fun u => u.script_conversations_used,
            fun u => u.script_conversations_limit)
  | "account_insights_used" =>
      some (fun u => u.account_analysis_used, fun u => u.account_analysis_limit)
  | "account_chat_used" =>
      some (fun u => u.account_analysis_used, fun u => u.account_analysis_limit)
  | _ => none

/-- `UserUsageService.checkUsageLimit` from
`src/src/middleware/monetization/index.ts`: obtain the usage row via
`getUserUsage` (which lazily creates a missing row); with no row, assume
the limit is reached (`true`); with an invalid field, `true`; with a
`-1` limit, `false` (unlimited); otherwise `used >= limit`. -/
def usCheckUsageLimit (env : UsEnv) (userId field : String) :
    Bool × UsEnv :=
  match usGetUserUsage env userId with
  | (none, env1) => (true, env1)
  | (some usage, env1) =>
    match checkLimitFieldMap field with
    | none => (true, env1)
    | some accessors =>
      let used := accessors.1 usage
      let limit := accessors.2 usage
      if limit = -1 then (false, env1)
      else (decide (used ≥ limit), env1)

/-- The `fieldMap` of `UserUsageService.incrementUsage`
(`src/src/middleware/monetization/index.ts`): usage field name to the
database column written (aliases map to `account_analysis_used`). -/
def incrementFieldColumn (field : String) : Option String :=
  match field with
  | "videos_generated" => some "videos_generated"
  | "source_videos_used" => some "source_videos_used"
  | "voice_clones_used" => some "voice_clones_used"
  | "account_analysis_used" => some "account_analysis_used"
  | "script_conversations_used" => some "script_conversations_used"
  | "account_insights_used" => some "account_analysis_used"
  | "account_chat_used" => some "account_analysis_used"
  | _ => none

/-- Read one counter column of a `user_usage` row (the `usage[dbField] || 0`
access of `UserUsageService.incrementUsage`; only the five counter columns
of `incrementFieldColumn` occur). -/
def getColumn (col : String) (u : UserUsage) : Int :=
  match col with
  | "videos_generated" => u.videos_generated
  | "source_videos_used" => u.source_videos_used
  | "voice_clones_used" => u.voice_clones_used
  | "account_analysis_used" => u.account_analysis_used
  | "script_conversations_used" => u.script_conversations_used
  | _ => 0

/-- Write one counter column of a `user_usage` row (the
`.update({ [dbField]: newValue })` patch of
`UserUsageService.incrementUsage`). -/
def setColumn (col : String) (v : Int) (u : UserUsage) : UserUsage :=
  match col with
  | "videos_generated" => { u with videos_generated := v }
  | "source_videos_used" => { u with source_videos_used := v }
  | "voice_clones_used" => { u with voice_clones_used := v }
  | "account_analysis_used" => { u with account_analysis_used := v }
  | "script_conversations_used" => { u with script_conversations_used := v }
  | _ => u

/-- `UserUsageService.incrementUsage` from
`src/src/middleware/monetization/index.ts`, run to completion in isolation:
read the usage row via `getUserUsage`, map the field to its column, compute
`newValue = currentValue + amount` in this process, and write `newValue`
back with `.update(...)`.  Note the mutation is a read-then-write round
trip, not a store-side increment. -/
def usIncrementUsage (env : UsEnv) (userId field : String) (amount : Int) :
    Bool × UsEnv :=
  match usGetUserUsage env userId with
  | (none, env1) => (false, env1)
  | (some usage, env1) =>
    match incrementFieldColumn field with
    | none => (false, env1)
    | some dbField =>
      let currentValue := getColumn dbField usage
      let newValue := currentValue + amount
      if env1.updateOk then
        (true, putRow env1 (setColumn dbField newValue usage))
      else (false, env1)

/-! ## Concurrent semantics of the two usage mutations (claim C2)

`MonetizationService.incrementUsage` (`src/unnamed/part_012`) issues a single
`rpc('increment_user_usage', ...)` call, so per call the counter changes in
one backing-store step.  `UserUsageService.incrementUsage`
(`src/src/middleware/monetization/index.ts`) issues a read (`getUserUsage`)
and then a write (`.update`) of a value computed in process.  To compare the
two under concurrency we model one counter cell of the store and two clients
whose steps interleave. -/

/-- Modelled from the spec: the `increment_user_usage` stored procedure of
the backing store (invoked by `supabaseClient.rpc` in
`src/unnamed/part_012`) is not part of this repository's sources; per §6 of
the spec the store exposes it as an atomic server-side increment, so one
rpc call is one atomic addition to the counter. -/
def rpcIncrementStep (counter amount : Int) : Int :=
  counter + amount

/-- Progress of one client running the read/compute/write sequence of
`UserUsageService.incrementUsage` against the shared counter: not yet read,
read a snapshot (`currentValue`), or finished writing. -/
inductive RmwPhase where
  | toRead
  | toWrite (currentValue : Int)
  | finished
deriving DecidableEq

/-- Shared counter plus the phases of two concurrent
`UserUsageService.incrementUsage` clients. -/
structure TwoRmwState where
  counter : Int
  clientA : RmwPhase
  clientB : RmwPhase
deriving DecidableEq

/-- Which of the two concurrent clients performs the next store round trip. -/
inductive ClientTag where
  | ca
  | cb
deriving DecidableEq

/-- One store round trip of one `UserUsageService.incrementUsage` client:
its read step returns the current counter (`getUserUsage`), and its write
step stores `currentValue + amount` computed from its own earlier snapshot
(`.update({ [dbField]: newValue })`). -/
def rmwClientStep (amount : Int) (counter : Int) :
    RmwPhase → RmwPhase × Int
  | .toRead => (.toWrite counter, counter)
  | .toWrite currentValue => (.finished, currentValue + amount)
  | .finished => (.finished, counter)

/-- Interleaved execution of two `UserUsageService.incrementUsage` clients:
the scheduled client performs its next store round trip. -/
def twoRmwStep (amountA amountB : Int) (s : TwoRmwState) :
    ClientTag → TwoRmwState
  | .ca =>
      let next := rmwClientStep amountA s.counter s.clientA
      { s with clientA := next.1, counter := next.2 }
  | .cb =>
      let next := rmwClientStep amountB s.counter s.clientB
      { s with clientB := next.1, counter := next.2 }

/-- Run the two-client machine under a schedule. -/
def twoRmwRun (amountA amountB : Int) (s : TwoRmwState) :
    List ClientTag → TwoRmwState
  | [] => s
  | t :: rest => twoRmwRun amountA amountB (twoRmwStep amountA amountB s t) rest

/-! ## Request-pipeline charge stage
(`src/src/middleware/monetization/monetization-middleware.ts`) -/

/-- The body a handler passes to `res.send`, as far as the charge stage
inspects it: an already-structured object (used as is), a string that
`JSON.parse` accepts (with the `success` field of the parsed value, if
any), or a string that `JSON.parse` rejects (e.g. plain text). -/
inductive ResponseBody where
  | objBody (success : Option Bool)
  | strParsable (success : Option Bool)
  | strMalformed (text : String)
deriving DecidableEq

/-- The `typeof body === 'string' ? JSON.parse(body) : body` step of
`createUsageIncrementMiddleware`: `none` when `JSON.parse` throws,
otherwise the `success` field of the resulting value (`none` when absent,
i.e. `undefined`). -/
def parseBody : ResponseBody → Option (Option Bool)
  | .objBody success => some success
  | .strParsable success => some success
  | .strMalformed _ => none

/-- The charge queueing of `createMonetizationMiddleware`
(`src/src/middleware/monetization/monetization-middleware.ts`): after a
successful policy check, `req.monetizationAction` is set iff the route was
configured with `incrementUsage` and an `action`. -/
def queuedChargeAction (incrementUsage : Bool) (action : Option String)
    (checkSucceeded : Bool) : Option String :=
  if checkSucceeded then
    if incrementUsage then
      match action with
      | some a => some a
      | none => none
    else none
  else none

/-- Observable outcome of the intercepted `res.send` of
`createUsageIncrementMiddleware`: whether `incrementUsage` was invoked, and
the body and status actually delivered to the caller. -/
structure ChargeOutcome where
  incremented : Bool
  deliveredBody : ResponseBody
  deliveredStatus : Nat
deriving DecidableEq

/-- The charge stage (`createUsageIncrementMiddleware` from
`src/src/middleware/monetization/monetization-middleware.ts`): with no
queued action the middleware calls `next()` without wrapping `res.send`;
otherwise the wrapped `res.send` parses the body (a `JSON.parse` throw is
caught, logged and skips the charge), invokes
`MonetizationService.incrementUsage` iff
`responseBody.success !== false && res.statusCode < 400`, fire-and-forget
(`.catch` logs a charge failure, `chargeSucceeds` is never consulted for
the response), and always forwards the original body via
`originalSend.call(this, body)`. -/
def usageIncrementSend (queuedAction : Option String) (statusCode : Nat)
    (body : ResponseBody) (chargeSucceeds : Bool) : ChargeOutcome :=
  match queuedAction with
  | none =>
      { incremented := false, deliveredBody := body,
        deliveredStatus := statusCode }
  | some _ =>
      match parseBody body with
      | none =>
          { incremented := false, deliveredBody := body,
            deliveredStatus := statusCode }
      | some successField =>
          if successField ≠ some false ∧ statusCode < 400 then
            let _ := chargeSucceeds
            { incremented := true, deliveredBody := body,
              deliveredStatus := statusCode }
          else
            { incremented := false, deliveredBody := body,
              deliveredStatus := statusCode }

/-! ## Spec-side predicate for the charge condition (claim C6) -/

/-- Modelled from the spec (claim C6's words, for refinement comparison
only): "the response payload ... explicitly declare[s] failure
(`success !== false`)" - the payload carries a `success` field equal to
`false`.  A plain-text body declares nothing. -/
def specDeclaresFailure : ResponseBody → Bool
  | .objBody success => success = some false
  | .strParsable success => success = some false
  | .strMalformed _ => false

/-! ## Concrete rows and environments used by witnesses and counterexamples.

The three plan rows mirror `DEFAULT_PLAN_LIMITS` of
`src/src/types/constants.ts` (the seeded contents of the
`subscription_plans` table; `-1` is commented `// unlimited` there). -/

def freePlanRow : SubscriptionPlan :=
  { id := .free, videos_generated_limit := 1, source_videos_limit := 5,
    voice_clones_limit := 0, account_analysis_limit := 1,
    script_conversations_limit := 10 }

def creatorPlanRow : SubscriptionPlan :=
  { id := .creator, videos_generated_limit := 15, source_videos_limit := 50,
    voice_clones_limit := 1, account_analysis_limit := 4,
    script_conversations_limit := 100 }

def proPlanRow : SubscriptionPlan :=
  { id := .pro, videos_generated_limit := -1, source_videos_limit := -1,
    voice_clones_limit := 2, account_analysis_limit := -1,
    script_conversations_limit := -1 }

/-- A `pro` user's usage row with the unlimited sentinel on video generation
and a large used counter (the scenario of claim C1). -/
def proUnlimitedRecord : UserUsage :=
  { user_id := "user-pro", current_plan_id := .pro,
    videos_generated := 500, videos_generated_limit := -1,
    source_videos_used := 3, source_videos_limit := -1,
    voice_clones_used := 1, voice_clones_limit := 2,
    account_analysis_used := 0, account_analysis_limit := -1,
    script_conversations_used := 0, script_conversations_limit := -1,
    subscription_status := "active", next_reset_date := 0 }

/-- The active `video_generation` feature flag requiring the `free` plan. -/
def videoGenFlagFree : FeatureFlag :=
  { id := "video_generation", required_plan := some .free, is_active := true }

/-- Store for claim C1: the pro user's row and the active
`video_generation` flag. -/
def envC1 : MEnv :=
  { user_usage := fun uid =>
      if uid = "user-pro" then .found proUnlimitedRecord else .noRows,
    feature_flags := fun fid =>
      if fid = "video_generation" then .found videoGenFlagFree else .noRows }

/-- `UserUsageService`-side store holding the same pro user row (for the
sibling `checkUsageLimit`, which does honour the `-1` sentinel). -/
def envC1us : UsEnv :=
  { user_usage := fun uid =>
      if uid = "user-pro" then .found proUnlimitedRecord else .noRows,
    subscription_plans := fun pid =>
      match pid with
      | .free => .found freePlanRow
      | .creator => .found creatorPlanRow
      | .pro => .found proPlanRow,
    nowMs := 1000, insertOk := true, updateOk := true }

/-- A `creator` user exactly at the video-generation limit (spec scenario 2,
used by claim C3's counterexample). -/
def creatorAtLimitRecord : UserUsage :=
  { user_id := "user-creator", current_plan_id := .creator,
    videos_generated := 15, videos_generated_limit := 15,
    source_videos_used := 10, source_videos_limit := 50,
    voice_clones_used := 0, voice_clones_limit := 1,
    account_analysis_used := 2, account_analysis_limit := 4,
    script_conversations_used := 5, script_conversations_limit := 100,
    subscription_status := "active", next_reset_date := 0 }

/-- Store for claim C3: the at-limit creator user and an active
`video_generation` flag requiring the `creator` plan. -/
def envC3 : MEnv :=
  { user_usage := fun uid =>
      if uid = "user-creator" then .found creatorAtLimitRecord else .noRows,
    feature_flags := fun fid =>
      if fid = "video_generation" then
        .found { id := "video_generation", required_plan := some .creator,
                 is_active := true }
      else .noRows }

/-- Store for claim C4 in which the `voice_clone` feature flag row does not
exist. -/
def envFlagMissing : MEnv :=
  { user_usage := fun _ => .noRows,
    feature_flags := fun _ => .noRows }

/-- Store for claim C4 in which the `feature_flags` lookup fails (registry
unreachable). -/
def envFlagDown : MEnv :=
  { user_usage := fun _ => .noRows,
    feature_flags := fun _ => .storeFailure }

/-- Empty store for claim C5's witness: the invalid-feature short circuit
must not touch it. -/
def envC5 : MEnv :=
  { user_usage := fun _ => .noRows,
    feature_flags := fun _ => .noRows }

/-- Store for claim C7's witness: no usage row for `"new-user"`, plan
catalog seeded with the default rows. -/
def envC7 : UsEnv :=
  { user_usage := fun _ => .noRows,
    subscription_plans := fun pid =>
      match pid with
      | .free => .found freePlanRow
      | .creator => .found creatorPlanRow
      | .pro => .found proPlanRow,
    nowMs := 1700000000000, insertOk := true, updateOk := true }

/-- An existing usage row whose `subscription_status` is not `'active'`
(written out-of-band, e.g. by a billing webhook), with mid-cycle counters
(claim C8). -/
def canceledCreatorRecord : UserUsage :=
  { user_id := "user-8", current_plan_id := .creator,
    videos_generated := 7, videos_generated_limit := 15,
    source_videos_used := 3, source_videos_limit := 50,
    voice_clones_used := 1, voice_clones_limit := 1,
    account_analysis_used := 2, account_analysis_limit := 4,
    script_conversations_used := 4, script_conversations_limit := 100,
    subscription_status := "canceled", next_reset_date := 555 }

/-- Store for claim C8: user `"user-8"` has `canceledCreatorRecord`, the
plan catalog is seeded, writes succeed. -/
def envC8 : UsEnv :=
  { user_usage := fun uid =>
      if uid = "user-8" then .found canceledCreatorRecord else .noRows,
    subscription_plans := fun pid =>
      match pid with
      | .free => .found freePlanRow
      | .creator => .found creatorPlanRow
      | .pro => .found proPlanRow,
    nowMs := 2000, insertOk := true, updateOk := true }

/-- Store for claim C9's counterexample: `"ghost"` has no usage row, the
plan catalog is seeded (the `free` row limits video generation to 1), and
the lazy insert succeeds. -/
def envC9 : UsEnv :=
  { user_usage := fun _ => .noRows,
    subscription_plans := fun pid =>
      match pid with
      | .free => .found freePlanRow
      | .creator => .found creatorPlanRow
      | .pro => .found proPlanRow,
    nowMs := 3000, insertOk := true, updateOk := true }

/-- A user usage row at its video-generation limit, for claim C9's witness. -/
def atLimitRecord : UserUsage :=
  { user_id := "at-limit-user", current_plan_id := .creator,
    videos_generated := 15, videos_generated_limit := 15,
    source_videos_used := 0, source_videos_limit := 50,
    voice_clones_used := 0, voice_clones_limit := 1,
    account_analysis_used := 0, account_analysis_limit := 4,
    script_conversations_used := 0, script_conversations_limit := 100,
    subscription_status := "active", next_reset_date := 0 }

/-- Store for claim C9's witness: an unlimited user, a user whose read
fails, and an at-limit user. -/
def envC9w : UsEnv :=
  { user_usage := fun uid =>
      if uid = "user-pro" then .found proUnlimitedRecord
      else if uid = "down-user" then .storeFailure
      else if uid = "at-limit-user" then .found atLimitRecord
      else .noRows,
    subscription_plans := fun _ => .storeFailure,
    nowMs := 4000, insertOk := false, updateOk := true }

/-! ## Theorems -/

/-- C1: the claim says a `-1` (unlimited) limit never blocks the quota
check, but `hasReachedLimit` (`src/src/types/database.ts`) is plainly
`used >= limit` with no sentinel case, so `500 >= -1` counts as "limit
reached" and `checkMonetization` denies the pro user with
`videos_generated = 500`, `videos_generated_limit = -1` with
"Usage limit reached" - while the sibling
`UserUsageService.checkUsageLimit` on the very same row honours the
sentinel and does not block.  This evaluates the code at the failing
input. -/
theorem c1_unlimited_pro_user_blocked :
    hasReachedLimit 500 (-1) = true ∧
    (checkMonetization envC1 "user-pro" "video_generation").1.success = false ∧
    (checkMonetization envC1 "user-pro" "video_generation").1.hasAccess = true ∧
    (checkMonetization envC1 "user-pro" "video_generation").1.err =
      some "Usage limit reached" ∧
    (usCheckUsageLimit envC1us "user-pro" "videos_generated").1 = false := by
  decide

/-- C2 counterexample: two concurrent `UserUsageService.incrementUsage`
calls (amount 1 each) on a counter at 2, interleaved read-read-write-write,
both complete yet leave the counter at 3, not 2 + 1 + 1 = 4: the
read-the-counter, add, write-it-back sequence loses an update, refuting
"never as a read, add, write-back sequence". -/
theorem c2_read_modify_write_loses_update :
    twoRmwRun 1 1 { counter := 2, clientA := .toRead, clientB := .toRead }
        [.ca, .cb, .ca, .cb] =
      { counter := 3, clientA := .finished, clientB := .finished } ∧
    (3 : Int) ≠ 2 + 1 + 1 := by
  decide

/-- C2 amended: `MonetizationService.incrementUsage`/`decrementUsage`
(`src/unnamed/part_012`) delegate to the store's atomic
`increment_user_usage`/`decrement_user_usage` rpc, so each call is one
atomic addition and two concurrent calls accumulate both amounts in either
serialization order; but `UserUsageService.incrementUsage`
(`src/src/middleware/monetization/index.ts`) performs a read-add-write
round trip, and the read-read-write-write interleaving of two such calls
loses an update. -/
theorem c2_amended_atomic_rpc_but_rmw_in_usage_service :
    (∀ init amountA amountB : Int,
      rpcIncrementStep (rpcIncrementStep init amountA) amountB =
          init + amountA + amountB ∧
        rpcIncrementStep (rpcIncrementStep init amountB) amountA =
          init + amountA + amountB) ∧
    (twoRmwRun 1 1 { counter := 2, clientA := .toRead, clientB := .toRead }
        [.ca, .cb, .ca, .cb]).counter = 2 + 1 := by
  refine ⟨fun init amountA amountB => ⟨?_, ?_⟩, by decide⟩
  · simp only [rpcIncrementStep]
  · simp only [rpcIncrementStep]
    ring

/-- C4 counterexample: with the `voice_clone` feature flag row absent
(`envFlagMissing`) and with the `feature_flags` table unreachable
(`envFlagDown`), `MonetizationService.getFeatureRequirements` returns the
very same observable result (`null`, after one flag read), refuting "a
caller never observes the same result for the two failures". -/
theorem c4_not_found_and_store_failure_conflated :
    mGetFeatureRequirements envFlagMissing "voice_clone" =
      mGetFeatureRequirements envFlagDown "voice_clone" ∧
    mGetFeatureRequirements envFlagMissing "voice_clone" =
      (none, [.readFeatureFlags "voice_clone"]) ∧
    envFlagMissing.feature_flags "voice_clone" = .noRows ∧
    envFlagDown.feature_flags "voice_clone" = .storeFailure := by
  decide

/-- C4 amended: `getFeatureRequirements` collapses its two failure modes:
both when the feature flag row does not exist and when the backing store
fails it returns `null` (after the same single flag read), so callers
cannot tell "feature does not exist" from "registry unreachable". -/
theorem c4_amended_both_failures_yield_null (env : MEnv) (featureId : String) :
    (env.feature_flags featureId = .noRows →
      mGetFeatureRequirements env featureId =
        (none, [.readFeatureFlags featureId])) ∧
    (env.feature_flags featureId = .storeFailure →
      mGetFeatureRequirements env featureId =
        (none, [.readFeatureFlags featureId])) := by
  constructor
  · intro h
    simp [mGetFeatureRequirements, h]
  · intro h
    simp [mGetFeatureRequirements, h]

/-- C4 amended, witness: the amended theorem applied at the two concrete
stores of the counterexample. -/
theorem c4_amended_witness :
    mGetFeatureRequirements envFlagMissing "voice_clone" =
      (none, [.readFeatureFlags "voice_clone"]) ∧
    mGetFeatureRequirements envFlagDown "voice_clone" =
      (none, [.readFeatureFlags "voice_clone"]) :=
  ⟨(c4_amended_both_failures_yield_null envFlagMissing "voice_clone").1 rfl,
   (c4_amended_both_failures_yield_null envFlagDown "voice_clone").2 rfl⟩

/-- C5: for any feature id that is not a known feature,
`checkMonetization` returns the invalid-feature failure (`success: false`,
`error: "Invalid feature ID: ..."`, no details) having performed no
backing-store call at all - the validation short-circuits before the
user-usage read and the feature-flag read. -/
theorem c5_invalid_feature_short_circuits (env : MEnv)
    (userId featureId : String) (h : isValidFeatureId featureId = false) :
    checkMonetization env userId featureId =
      ({ success := false, hasAccess := false, currentPlan := .free,
         remainingUsage := 0, totalLimit := 0,
         err := some ("Invalid feature ID: " ++ featureId),
         details := none }, []) := by
  simp [checkMonetization, h]

/-- C5 witness: the unknown feature id `"does_not_exist"` against a
concrete store. -/
theorem c5_invalid_feature_witness :
    isValidFeatureId "does_not_exist" = false ∧
    checkMonetization envC5 "user-1" "does_not_exist" =
      ({ success := false, hasAccess := false, currentPlan := .free,
         remainingUsage := 0, totalLimit := 0,
         err := some ("Invalid feature ID: " ++ "does_not_exist"),
         details := none }, []) :=
  ⟨by decide,
   c5_invalid_feature_short_circuits envC5 "user-1" "does_not_exist"
     (by decide)⟩

/-- C3 counterexample: the creator user at the video-generation limit
(`videos_generated = 15`, limit `15`) on a feature requiring the `creator`
plan is denied for quota (`hasAccess: true`, `success: false`,
"Usage limit reached", quota numbers reported) - yet the result's `details`
carry `requiredPlan = creator`, i.e. plan-requirement information, refuting
"a result denied for quota reports no plan-requirement information". -/
theorem c3_quota_denial_reports_required_plan :
    (checkMonetization envC3 "user-creator" "video_generation").1.success
        = false ∧
    (checkMonetization envC3 "user-creator" "video_generation").1.hasAccess
        = true ∧
    (checkMonetization envC3 "user-creator" "video_generation").1.err
        = some "Usage limit reached" ∧
    (checkMonetization envC3 "user-creator" "video_generation").1.totalLimit
        = 15 ∧
    (checkMonetization envC3 "user-creator" "video_generation").1.details
        = some { featureId := "video_generation",
                 requiredPlan := some .creator,
                 usageType := "videos_generated" } := by
  decide

/-- C3 amended: per evaluation the two denial kinds remain distinguishable
and a plan-denied result reports no quota numbers (`remainingUsage` and
`totalLimit` are zeroed whenever `hasAccess` is false), and a quota-denied
result (denied with `hasAccess: true`) carries the quota error - but the
`details` object of every denial carries the feature's `requiredPlan`, so a
quota denial does include plan-requirement information (see the
counterexample). -/
theorem c3_amended_plan_denial_zeroes_quota (env : MEnv)
    (userId featureId : String) :
    ((checkMonetization env userId featureId).1.hasAccess = false →
      (checkMonetization env userId featureId).1.remainingUsage = 0 ∧
      (checkMonetization env userId featureId).1.totalLimit = 0) ∧
    ((checkMonetization env userId featureId).1.hasAccess = true →
      (checkMonetization env userId featureId).1.success = false →
      (checkMonetization env userId featureId).1.err =
        some "Usage limit reached") := by
  unfold checkMonetization
  split
  · exact ⟨fun _ => ⟨rfl, rfl⟩, by simp⟩
  · rcases hA : checkFeatureAccess env userId featureId with ⟨accessResult, calls1⟩
    simp only
    split
    · exact ⟨fun _ => ⟨rfl, rfl⟩, by simp⟩
    · rcases hU : validateUsage env userId (getActionForFeature featureId)
        with ⟨usageResult, calls2⟩
      simp only
      split
      · exact ⟨by simp, fun _ _ => rfl⟩
      · exact ⟨by simp, by simp⟩

/-- C3 amended, witness: the amended theorem applied at the concrete store
of the counterexample (quota-denial case) plus, for the plan-denial
conjunct, a free user requesting the creator-gated feature. -/
theorem c3_amended_witness :
    (checkMonetization envC3 "user-creator" "video_generation").1.err =
      some "Usage limit reached" ∧
    (checkMonetization envC3 "absent-user" "video_generation").1.remainingUsage
      = 0 :=
  ⟨(c3_amended_plan_denial_zeroes_quota envC3 "user-creator"
      "video_generation").2 (by decide) (by decide),
   ((c3_amended_plan_denial_zeroes_quota envC3 "absent-user"
      "video_generation").1 (by decide)).1⟩

/-- C6 counterexample: a charge is queued, the handler responds with status
200 and a plain-text body (`JSON.parse` rejects it), which does not declare
failure - the claim's condition for charging holds - yet
`createUsageIncrementMiddleware` charges nothing: the parse throw is caught
and the charge is skipped. -/
theorem c6_plain_text_success_not_charged :
    specDeclaresFailure (.strMalformed "OK") = false ∧
    (usageIncrementSend (some "video_generation") 200
        (.strMalformed "OK") true).incremented = false := by
  decide

/-- C6 amended: usage is charged iff a charge was queued, the status is
below 400, and the response body parses as JSON (an object body or a
well-formed JSON string) whose `success` field is not `false` - an
unparseable body is never charged; and neither the charge nor its outcome
ever alters the body or status delivered to the caller (the outcome with a
failing charge equals the outcome with a succeeding one). -/
theorem c6_amended_charge_iff_parsed_success (queuedAction : Option String)
    (statusCode : Nat) (body : ResponseBody) (chargeSucceeds : Bool) :
    ((usageIncrementSend queuedAction statusCode body
        chargeSucceeds).incremented = true ↔
      (queuedAction.isSome = true ∧ statusCode < 400 ∧
        ∃ successField, parseBody body = some successField ∧
          successField ≠ some false)) ∧
    (usageIncrementSend queuedAction statusCode body
        chargeSucceeds).deliveredBody = body ∧
    (usageIncrementSend queuedAction statusCode body
        chargeSucceeds).deliveredStatus = statusCode ∧
    usageIncrementSend queuedAction statusCode body true =
      usageIncrementSend queuedAction statusCode body false := by
  refine ⟨?_, ?_, ?_, ?_⟩
  · cases queuedAction with
    | none => simp [usageIncrementSend]
    | some a =>
      cases body with
      | objBody s =>
        by_cases hs : statusCode < 400 <;> by_cases hf : s = some false <;>
          simp_all [usageIncrementSend, parseBody] <;>
          exact iff_of_false (by rw [if_neg (by omega)]; simp) (by omega)
      | strParsable s =>
        by_cases hs : statusCode < 400 <;> by_cases hf : s = some false <;>
          simp_all [usageIncrementSend, parseBody] <;>
          exact iff_of_false (by rw [if_neg (by omega)]; simp) (by omega)
      | strMalformed t => simp [usageIncrementSend, parseBody]
  all_goals
    cases queuedAction <;> cases body <;>
      simp only [usageIncrementSend, parseBody] <;> split_ifs <;> rfl

/-- C6 amended, witness: a queued charge with a successful object body is
charged and delivered unchanged. -/
theorem c6_amended_witness :
    (usageIncrementSend (some "video_generation") 200
        (.objBody (some true)) false).incremented = true ∧
    (usageIncrementSend (some "video_generation") 200
        (.objBody (some true)) false).deliveredBody =
      .objBody (some true) :=
  ⟨(c6_amended_charge_iff_parsed_success (some "video_generation") 200
      (.objBody (some true)) false).1.mpr
      ⟨rfl, by decide, some true, rfl, by decide⟩,
   (c6_amended_charge_iff_parsed_success (some "video_generation") 200
      (.objBody (some true)) false).2.1⟩

/-- Remaining usage as computed by `calculateRemainingUsage` is clamped at
zero. -/
theorem calcRemaining_nonneg (used limit : Int) :
    0 ≤ calculateRemainingUsage used limit :=
  le_max_left 0 _

/-- Every `checkFeatureAccess` result reports a nonnegative
`remainingUsage`. -/
theorem checkFeatureAccess_remaining_nonneg (env : MEnv)
    (userId featureId : String) :
    0 ≤ (checkFeatureAccess env userId featureId).1.remainingUsage := by
  unfold checkFeatureAccess
  split
  · simp
  · split
    · simp
    · simpa using calcRemaining_nonneg _ _

/-- Every `validateUsage` result reports a nonnegative `remainingUsage`. -/
theorem validateUsage_remaining_nonneg (env : MEnv)
    (userId action : String) :
    0 ≤ (validateUsage env userId action).1.remainingUsage := by
  unfold validateUsage
  split
  · simp
  · split
    · simp
    · simpa using calcRemaining_nonneg _ _

/-- Every `checkMonetization` result reports a nonnegative
`remainingUsage`. -/
theorem checkMonetization_remaining_nonneg (env : MEnv)
    (userId featureId : String) :
    0 ≤ (checkMonetization env userId featureId).1.remainingUsage := by
  unfold checkMonetization
  split
  · simp
  · rcases hA : checkFeatureAccess env userId featureId with ⟨accessResult, calls1⟩
    simp only
    split
    · simp
    · rcases hU : validateUsage env userId (getActionForFeature featureId)
        with ⟨usageResult, calls2⟩
      have hu : 0 ≤ usageResult.remainingUsage := by
        have h := validateUsage_remaining_nonneg env userId
          (getActionForFeature featureId)
        rw [hU] at h
        exact h
      simp only
      split
      · simpa using hu
      · simpa using hu

/-- C10: the `remainingUsage` reported by `checkFeatureAccess`,
`validateUsage` and `checkMonetization` is never negative, because
remaining usage is computed by `calculateRemainingUsage` as
`max(0, limit - used)` - clamped at zero even for records whose `used`
meets or exceeds `limit` (the record itself is not clamped). -/
theorem c10_remaining_usage_never_negative :
    (∀ used limit : Int, 0 ≤ calculateRemainingUsage used limit) ∧
    (∀ (env : MEnv) (userId featureId : String),
      0 ≤ (checkFeatureAccess env userId featureId).1.remainingUsage) ∧
    (∀ (env : MEnv) (userId action : String),
      0 ≤ (validateUsage env userId action).1.remainingUsage) ∧
    (∀ (env : MEnv) (userId featureId : String),
      0 ≤ (checkMonetization env userId featureId).1.remainingUsage) :=
  ⟨calcRemaining_nonneg, checkFeatureAccess_remaining_nonneg,
   validateUsage_remaining_nonneg, checkMonetization_remaining_nonneg⟩

/-- C7: for a user with no usage row (`PGRST116`), provided the plan
catalog holds a `free` row and the insert succeeds,
`UserUsageService.getUserUsage` lazily creates and returns the default
free-plan record: all used counters zero, limit fields copied from the
catalog row, `next_reset_date` thirty days (in milliseconds) past
`Date.now()`; the store afterwards holds that row. -/
theorem c7_lazy_default_free_record (env : UsEnv) (userId : String)
    (p : SubscriptionPlan)
    (h1 : env.user_usage userId = .noRows)
    (h2 : env.subscription_plans .free = .found p)
    (h3 : env.insertOk = true) :
    (usGetUserUsage env userId).1 =
      some (mkDefaultRecord userId env.nowMs p .free) ∧
    (usGetUserUsage env userId).2.user_usage userId =
      .found (mkDefaultRecord userId env.nowMs p .free) ∧
    (mkDefaultRecord userId env.nowMs p .free).videos_generated = 0 ∧
    (mkDefaultRecord userId env.nowMs p .free).videos_generated_limit =
      p.videos_generated_limit ∧
    (mkDefaultRecord userId env.nowMs p .free).current_plan_id = .free ∧
    (mkDefaultRecord userId env.nowMs p .free).next_reset_date =
      env.nowMs + 30 * 24 * 60 * 60 * 1000 := by
  unfold usGetUserUsage
  rw [h1]
  unfold usCreateUserUsage usGetPlanLimits
  rw [h2, h3]
  simp [putRow, mkDefaultRecord]

/-- C7 witness: the lazy-create theorem at a concrete store with the
seeded default plan rows. -/
theorem c7_lazy_default_free_record_witness :
    (usGetUserUsage envC7 "new-user").1 =
      some (mkDefaultRecord "new-user" 1700000000000 freePlanRow .free) ∧
    (usGetUserUsage envC7 "new-user").2.user_usage "new-user" =
      .found (mkDefaultRecord "new-user" 1700000000000 freePlanRow .free) ∧
    (mkDefaultRecord "new-user" 1700000000000 freePlanRow .free).videos_generated
      = 0 ∧
    (mkDefaultRecord "new-user" 1700000000000 freePlanRow
        .free).videos_generated_limit = freePlanRow.videos_generated_limit ∧
    (mkDefaultRecord "new-user" 1700000000000 freePlanRow
        .free).current_plan_id = .free ∧
    (mkDefaultRecord "new-user" 1700000000000 freePlanRow
        .free).next_reset_date = 1700000000000 + 30 * 24 * 60 * 60 * 1000 :=
  c7_lazy_default_free_record envC7 "new-user" freePlanRow rfl rfl rfl

/-- C8 counterexample: updating the canceled creator user to `pro`
overwrites `subscription_status` (from `"canceled"` to `"active"`), a
column that is neither a per-resource limit field nor the plan id,
refuting "overwrites only the per-resource limit fields and the plan
id". -/
theorem c8_update_overwrites_subscription_status :
    canceledCreatorRecord.subscription_status = "canceled" ∧
    ((usUpdateUserPlan envC8 "user-8" .pro).1.map
      (fun u => u.subscription_status)) = some "active" := by
  decide

/-- C8 amended: for an existing (obtainable) record, `updateUserPlan`
overwrites the plan id, the five per-resource limit fields and
`subscription_status` (reset to `'active'`), leaving every used counter,
the reset date and the user id unchanged; for a user whose record cannot
be read the call delegates to `createUserUsage` with the new plan, and for
a user with no record at all (lazy creation inside `getUserUsage`
succeeding) the returned record equals what `createUserUsage` with the new
plan returns. -/
theorem c8_amended_update_plan :
    (∀ (env : UsEnv) (userId : String) (newPlan : PlanIdentifier)
        (u : UserUsage) (env' : UsEnv) (p : SubscriptionPlan),
      usGetUserUsage env userId = (some u, env') →
      usGetPlanLimits env' newPlan = some p →
      env'.updateOk = true →
      (usUpdateUserPlan env userId newPlan).1 =
        some { u with
               current_plan_id := newPlan
               videos_generated_limit := p.videos_generated_limit
               source_videos_limit := p.source_videos_limit
               voice_clones_limit := p.voice_clones_limit
               account_analysis_limit := p.account_analysis_limit
               script_conversations_limit := p.script_conversations_limit
               subscription_status := "active" }) ∧
    (∀ (env : UsEnv) (userId : String) (newPlan : PlanIdentifier)
        (pFree pNew : SubscriptionPlan),
      env.user_usage userId = .noRows →
      env.subscription_plans .free = .found pFree →
      env.subscription_plans newPlan = .found pNew →
      env.insertOk = true →
      env.updateOk = true →
      (usUpdateUserPlan env userId newPlan).1 =
        (usCreateUserUsage env userId newPlan).1) := by
  constructor
  · intro env userId newPlan u env' p h1 h2 h3
    unfold usUpdateUserPlan
    rw [h1]
    simp only
    rw [h2, h3]
    simp
  · intro env userId newPlan pFree pNew h1 h2 h3 h4 h5
    unfold usUpdateUserPlan usGetUserUsage usCreateUserUsage usGetPlanLimits
    rw [h1, h2, h3, h4]
    simp [putRow, h3, h5, mkDefaultRecord]

/-- C8 amended, witness: the update of the concrete canceled creator user
to `pro` (counters kept, limits and status resynced), and the
no-record case against a concrete empty store. -/
theorem c8_amended_update_plan_witness :
    (usUpdateUserPlan envC8 "user-8" .pro).1 =
      some { canceledCreatorRecord with
             current_plan_id := .pro
             videos_generated_limit := proPlanRow.videos_generated_limit
             source_videos_limit := proPlanRow.source_videos_limit
             voice_clones_limit := proPlanRow.voice_clones_limit
             account_analysis_limit := proPlanRow.account_analysis_limit
             script_conversations_limit := proPlanRow.script_conversations_limit
             subscription_status := "active" } ∧
    (usUpdateUserPlan envC9 "ghost" .creator).1 =
      (usCreateUserUsage envC9 "ghost" .creator).1 :=
  ⟨c8_amended_update_plan.1 envC8 "user-8" .pro canceledCreatorRecord envC8
      proPlanRow rfl rfl rfl,
   c8_amended_update_plan.2 envC9 "ghost" .creator freePlanRow creatorPlanRow
      rfl rfl rfl rfl rfl⟩

/-- C9 counterexample: `"ghost"` has no usage record, yet
`checkUsageLimit` returns `false`, not the fail-closed `true` the claim
states: `getUserUsage` lazily creates a free-plan record (videos limit 1,
used 0) and the check runs against it. -/
theorem c9_missing_record_not_fail_closed :
    envC9.user_usage "ghost" = .noRows ∧
    (usCheckUsageLimit envC9 "ghost" "videos_generated").1 = false := by
  decide

/-- C9 amended: `checkUsageLimit` returns `false` whenever the obtained
(possibly lazily created) record's limit for the field is `-1`, regardless
of `used`; returns `true` (fail closed) when no record can be obtained
(the read fails, or the record is missing and the lazy creation fails);
and otherwise returns `used ≥ limit`.  A missing record whose lazy
creation succeeds is checked against the fresh free-plan record (see the
counterexample). -/
theorem c9_amended_check_usage_limit :
    (∀ (env : UsEnv) (userId field : String) (u : UserUsage) (env' : UsEnv)
        (acc : (UserUsage → Int) × (UserUsage → Int)),
      usGetUserUsage env userId = (some u, env') →
      checkLimitFieldMap field = some acc →
      acc.2 u = -1 →
      (usCheckUsageLimit env userId field).1 = false) ∧
    (∀ (env : UsEnv) (userId field : String),
      (usGetUserUsage env userId).1 = none →
      (usCheckUsageLimit env userId field).1 = true) ∧
    (∀ (env : UsEnv) (userId field : String) (u : UserUsage) (env' : UsEnv)
        (acc : (UserUsage → Int) × (UserUsage → Int)),
      usGetUserUsage env userId = (some u, env') →
      checkLimitFieldMap field = some acc →
      acc.2 u ≠ -1 →
      (usCheckUsageLimit env userId field).1 = decide (acc.1 u ≥ acc.2 u)) := by
  refine ⟨?_, ?_, ?_⟩
  · intro env userId field u env' acc h1 h2 h3
    unfold usCheckUsageLimit
    rw [h1]
    simp only
    rw [h2]
    simp [h3]
  · intro env userId field h
    unfold usCheckUsageLimit
    rcases hg : usGetUserUsage env userId with ⟨o, e⟩
    rw [hg] at h
    simp only at h
    subst h
    simp
  · intro env userId field u env' acc h1 h2 h3
    unfold usCheckUsageLimit
    rw [h1]
    simp only
    rw [h2]
    simp [h3]

/-- C9 amended, witness: the three cases at a concrete store - the pro
user with a `-1` limit is never blocked, the user whose read fails is
blocked fail-closed, and the at-limit user is blocked by `used ≥ limit`. -/
theorem c9_amended_check_usage_limit_witness :
    (usCheckUsageLimit envC9w "user-pro" "videos_generated").1 = false ∧
    (usCheckUsageLimit envC9w "down-user" "videos_generated").1 = true ∧
    (usCheckUsageLimit envC9w "at-limit-user" "videos_generated").1 = true :=
  ⟨c9_amended_check_usage_limit.1 envC9w "user-pro" "videos_generated"
      proUnlimitedRecord envC9w
      (fun u => u.videos_generated, fun u => u.videos_generated_limit)
      rfl rfl rfl,
   c9_amended_check_usage_limit.2.1 envC9w "down-user" "videos_generated" rfl,
   c9_amended_check_usage_limit.2.2 envC9w "at-limit-user" "videos_generated"
      atLimitRecord envC9w
      (fun u => u.videos_generated, fun u => u.videos_generated_limit)
      rfl rfl (by decide)⟩

end EditiaCore
